import Mathlib

/-!
Verification of the Tesla-ESP-CAN vehicle-signal relay.

The definitions below are shallow embeddings of the C++ source of the
repository: the Motorola big-endian bit-field extractor, the format-A
ESP-NOW packet codec (transmitter encode with XOR checksum, receiver
validation), the receiver lifecycle state machine, the web receiver
liveness indicator, the turn-signal debouncer, the priority arbiter and
the tail fill of the renderer.  Machine integers are modelled as Nat
with explicit wraparound where the C code wraps (uint32 millis
subtraction, uint16 and uint32 sequence counters, uint8 bytes).
-/

/-- Wraparound subtraction of two uint32 values, as computed by
expressions such as `millis() - lastPktMs` in the source. -/
def sub32 (a b : Nat) : Nat :=
  (a % 4294967296 + 4294967296 - b % 4294967296) % 4294967296

theorem sub32_eq {a b : Nat} (hba : b ≤ a) (ha : a < 4294967296) :
    sub32 a b = a - b := by
  unfold sub32
  omega

/-! ## Bit-field extractor (part_001 lines 99-105, part_002 lines 70-76,
ESP_TX_WEB.ino lines 57-63; the three copies are textually identical). -/

/-- Big-endian reassembly loop of `extract_moto_be`:
`for (int i = 0; i < 8; i++) be = (be << 8) | data[i];`. -/
def reassembleBE (data : List Nat) : Nat :=
  data.foldl (fun be b => (be <<< 8) ||| b) 0

/-- `extract_moto_be(data, startBit, len)` from the source:
`shift = 64 - startBit - len`,
`mask = (len == 64) ? UINT64_MAX : ((1 << len) - 1)`,
result `(be >> shift) & mask`. -/
def extract_moto_be (data : List Nat) (startBit len : Nat) : Nat :=
  let be := reassembleBE data
  let shift := 64 - startBit - len
  let mask := if len = 64 then 18446744073709551615 else (1 <<< len) - 1
  (be >>> shift) &&& mask

theorem shiftLeft_or_byte (a : Nat) {b : Nat} (hb : b < 256) :
    (a <<< 8) ||| b = 256 * a + b := by
  have h := Nat.mul_add_lt_is_or (i := 8) (b := b) (by simpa using hb) a
  rw [Nat.shiftLeft_eq, Nat.mul_comm, ← h]

theorem reassembleBE_bytes (b0 b1 b2 b3 b4 b5 b6 b7 : Nat)
    (h0 : b0 < 256) (h1 : b1 < 256) (h2 : b2 < 256) (h3 : b3 < 256)
    (h4 : b4 < 256) (h5 : b5 < 256) (h6 : b6 < 256) (h7 : b7 < 256) :
    reassembleBE [b0, b1, b2, b3, b4, b5, b6, b7] =
      b0 * 2 ^ 56 + b1 * 2 ^ 48 + b2 * 2 ^ 40 + b3 * 2 ^ 32 +
        b4 * 2 ^ 24 + b5 * 2 ^ 16 + b6 * 2 ^ 8 + b7 := by
  simp only [reassembleBE, List.foldl]
  rw [shiftLeft_or_byte _ h7, shiftLeft_or_byte _ h6, shiftLeft_or_byte _ h5,
    shiftLeft_or_byte _ h4, shiftLeft_or_byte _ h3, shiftLeft_or_byte _ h2,
    shiftLeft_or_byte _ h1, shiftLeft_or_byte _ h0]
  norm_num
  ring

/-- C1: for every 8-byte payload and every (start, width) with width at
least 1 and start+width at most 64, `extract_moto_be` returns
`(be >>> (64 - start - width)) % 2 ^ width` where `be` is the big-endian
64-bit reassembly of the payload (with the full-width mask when
width = 64, since `2 ^ 64 - 1` is that mask); bit `j` of the result is
bit `64 - start - width + j` of `be` when `j < width` and `0` otherwise,
so the result is exactly bits [start, start+width) of `be` counted from
the most significant bit, right-aligned; and `be` places byte `i` of the
payload at bits [8*(7-i), 8*(8-i)). -/
theorem extract_moto_be_spec (b0 b1 b2 b3 b4 b5 b6 b7 : Nat)
    (hb : b0 < 256 ∧ b1 < 256 ∧ b2 < 256 ∧ b3 < 256 ∧
          b4 < 256 ∧ b5 < 256 ∧ b6 < 256 ∧ b7 < 256)
    (start width : Nat) (hw : 1 ≤ width) (hsw : start + width ≤ 64) :
    extract_moto_be [b0, b1, b2, b3, b4, b5, b6, b7] start width =
      (reassembleBE [b0, b1, b2, b3, b4, b5, b6, b7] >>>
        (64 - start - width)) % 2 ^ width
    ∧ (∀ j, (extract_moto_be [b0, b1, b2, b3, b4, b5, b6, b7]
          start width).testBit j =
        (decide (j < width) &&
          (reassembleBE [b0, b1, b2, b3, b4, b5, b6, b7]).testBit
            (64 - start - width + j)))
    ∧ reassembleBE [b0, b1, b2, b3, b4, b5, b6, b7] =
        b0 * 2 ^ 56 + b1 * 2 ^ 48 + b2 * 2 ^ 40 + b3 * 2 ^ 32 +
          b4 * 2 ^ 24 + b5 * 2 ^ 16 + b6 * 2 ^ 8 + b7 := by
  obtain ⟨h0, h1, h2, h3, h4, h5, h6, h7⟩ := hb
  have hmask : (if width = 64 then 18446744073709551615
      else (1 <<< width) - 1) = 2 ^ width - 1 := by
    split
    · subst width; norm_num
    · rw [Nat.shiftLeft_eq, Nat.one_mul]
  have hmain : extract_moto_be [b0, b1, b2, b3, b4, b5, b6, b7] start width =
      (reassembleBE [b0, b1, b2, b3, b4, b5, b6, b7] >>>
        (64 - start - width)) % 2 ^ width := by
    unfold extract_moto_be
    rw [hmask, Nat.and_pow_two_sub_one_eq_mod]
  refine ⟨hmain, ?_, ?_⟩
  · intro j
    rw [hmain]
    simp [Nat.testBit_mod_two_pow, Nat.testBit_shiftRight]
  · exact reassembleBE_bytes b0 b1 b2 b3 b4 b5 b6 b7 h0 h1 h2 h3 h4 h5 h6 h7

theorem extract_moto_be_spec_witness :
    (32 < 256 ∧ 0 < 256 ∧ 0 < 256 ∧ 0 < 256 ∧
      0 < 256 ∧ 0 < 256 ∧ 0 < 256 ∧ 0 < 256) ∧ 1 ≤ 2 ∧ 50 + 2 ≤ 64 ∧
    (extract_moto_be [32, 0, 0, 0, 0, 0, 0, 0] 50 2 =
      (reassembleBE [32, 0, 0, 0, 0, 0, 0, 0] >>> (64 - 50 - 2)) % 2 ^ 2
    ∧ (∀ j, (extract_moto_be [32, 0, 0, 0, 0, 0, 0, 0] 50 2).testBit j =
        (decide (j < 2) &&
          (reassembleBE [32, 0, 0, 0, 0, 0, 0, 0]).testBit
            (64 - 50 - 2 + j)))
    ∧ reassembleBE [32, 0, 0, 0, 0, 0, 0, 0] =
        32 * 2 ^ 56 + 0 * 2 ^ 48 + 0 * 2 ^ 40 + 0 * 2 ^ 32 +
          0 * 2 ^ 24 + 0 * 2 ^ 16 + 0 * 2 ^ 8 + 0) :=
  ⟨by decide, by decide, by decide,
    extract_moto_be_spec 32 0 0 0 0 0 0 0 (by decide) 50 2
      (by decide) (by decide)⟩

/-! ## Format-A packet codec (part_002 lines 36-54 and 78-97 on the
transmitter, part_003 lines 43-59 and 141-146 on the receiver).  The
packed struct layout on the little-endian ESP32 is
[magic, version, leftStatus, rightStatus, flags, seq lo, seq hi,
 ms byte0, ms byte1, ms byte2, ms byte3, crc], 12 bytes in total. -/

/-- The packed `Payload` struct shared by part_002 and part_003. -/
structure Payload where
  magic : Nat
  version : Nat
  leftStatus : Nat
  rightStatus : Nat
  flags : Nat
  seq : Nat
  ms : Nat
  crc : Nat
deriving DecidableEq

/-- The 12 bytes of the packed struct in memory order (little-endian
multi-byte fields), each reduced to a uint8. -/
def payloadBytes (p : Payload) : List Nat :=
  [p.magic % 256, p.version % 256, p.leftStatus % 256, p.rightStatus % 256,
   p.flags % 256,
   p.seq % 256, p.seq / 256 % 256,
   p.ms % 256, p.ms / 256 % 256, p.ms / 65536 % 256, p.ms / 16777216 % 256,
   p.crc % 256]

/-- XOR fold used by both checksum routines:
`uint8_t x = 0; for (...) x ^= b[i];`. -/
def xorBytes (l : List Nat) : Nat :=
  l.foldl (fun x b => x ^^^ b) 0

/-- `make_crc` of the transmitter (part_002 lines 49-54): XOR of all
bytes of the struct except the final crc byte. -/
def make_crc (p : Payload) : Nat :=
  xorBytes ((payloadBytes p).take 11)

/-- `calc_crc` of the receiver (part_003 lines 54-59); identical
routine to `make_crc`. -/
def calc_crc (p : Payload) : Nat :=
  xorBytes ((payloadBytes p).take 11)

/-- The packet built by `sendPacket` (part_002 lines 85-93): magic 0xA5,
version 1, the current statuses and flags, the sequence counter and the
sender clock, with the trailing crc computed over the preceding bytes. -/
def sendPacketPayload (leftStatus rightStatus flags seq ms : Nat) : Payload :=
  let p0 : Payload :=
    { magic := 0xA5, version := 1, leftStatus := leftStatus,
      rightStatus := rightStatus, flags := flags, seq := seq, ms := ms,
      crc := 0 }
  { p0 with crc := make_crc p0 }

/-- The `memcpy` of the receiver (part_003 line 144): reinterpret 12 raw
bytes as a `Payload`; any other length is rejected
(`if (len != (int)sizeof(Payload)) return;`, line 143). -/
def parsePayload : List Nat → Option Payload
  | [b0, b1, b2, b3, b4, b5, b6, b7, b8, b9, b10, b11] =>
      some { magic := b0, version := b1, leftStatus := b2, rightStatus := b3,
             flags := b4, seq := b5 + 256 * b6,
             ms := b7 + 256 * b8 + 65536 * b9 + 16777216 * b10, crc := b11 }
  | _ => none

/-- The validation sequence of `onRecv` (part_003 lines 143-146):
length, then magic and version, then checksum, in that order; any
failure rejects the whole packet. -/
def decodePacket (bytes : List Nat) : Option Payload :=
  match parsePayload bytes with
  | none => none
  | some p =>
    if p.magic ≠ 0xA5 ∨ p.version ≠ 1 then none
    else if calc_crc p ≠ p.crc then none
    else some p

theorem xorBytes_aux (l : List Nat) :
    ∀ a : Nat, a < 256 → (∀ b ∈ l, b < 256) →
      l.foldl (fun x b => x ^^^ b) a < 256 := by
  induction l with
  | nil => intro a ha _; simpa using ha
  | cons c l ih =>
      intro a ha hl
      simp only [List.foldl_cons]
      exact ih (a ^^^ c)
        (Nat.xor_lt_two_pow (n := 8) (by simpa using ha)
          (by simpa using hl c (List.mem_cons_self c l)))
        (fun b hb => hl b (List.mem_cons_of_mem c hb))

theorem xorBytes_lt_256 {l : List Nat} (hl : ∀ b ∈ l, b < 256) :
    xorBytes l < 256 :=
  xorBytes_aux l 0 (by norm_num) hl

theorem payloadBytes_lt_256 (p : Payload) : ∀ b ∈ payloadBytes p, b < 256 := by
  intro b hb
  simp only [payloadBytes, List.mem_cons, List.not_mem_nil, or_false] at hb
  rcases hb with h | h | h | h | h | h | h | h | h | h | h | h <;>
    (subst h; exact Nat.mod_lt _ (by norm_num))

theorem make_crc_lt_256 (p : Payload) : make_crc p < 256 :=
  xorBytes_lt_256 (fun b hb => payloadBytes_lt_256 p b (List.mem_of_mem_take hb))

/-- Reparsing the serialized bytes of an in-range payload recovers the
payload. -/
theorem parse_payloadBytes (p : Payload)
    (hm : p.magic < 256) (hv : p.version < 256) (hl : p.leftStatus < 256)
    (hr : p.rightStatus < 256) (hf : p.flags < 256) (hs : p.seq < 65536)
    (hc : p.ms < 4294967296) (hcrc : p.crc < 256) :
    parsePayload (payloadBytes p) = some p := by
  simp only [payloadBytes, parsePayload, Option.some.injEq]
  obtain ⟨m, v, l, r, f, s, ms, crc⟩ := p
  simp only [Payload.mk.injEq] at *
  refine ⟨?_, ?_, ?_, ?_, ?_, ?_, ?_, ?_⟩ <;> omega

theorem sendPacketPayload_eq (l r f s m : Nat) :
    sendPacketPayload l r f s m =
      { magic := 0xA5, version := 1, leftStatus := l, rightStatus := r,
        flags := f, seq := s, ms := m,
        crc := make_crc ({ magic := 0xA5, version := 1, leftStatus := l,
                           rightStatus := r, flags := f, seq := s, ms := m,
                           crc := 0 } : Payload) } :=
  rfl

/-- The checksum field of the struct does not enter its own computation,
so recomputing the checksum over an encoded packet reproduces the stored
checksum byte by definitional unfolding. -/
theorem calc_crc_sendPacket (l r f s m : Nat) :
    calc_crc (sendPacketPayload l r f s m) =
      (sendPacketPayload l r f s m).crc := rfl

/-- Decoding the serialized bytes of an encoded packet succeeds and
yields the encoded packet. -/
theorem decode_encode_eq (l r f s m : Nat)
    (hl : l < 256) (hr : r < 256) (hf : f < 256) (hs : s < 65536)
    (hm : m < 4294967296) :
    decodePacket (payloadBytes (sendPacketPayload l r f s m)) =
      some (sendPacketPayload l r f s m) := by
  have hcrc : (sendPacketPayload l r f s m).crc < 256 := by
    rw [sendPacketPayload_eq]
    exact make_crc_lt_256 _
  have hparse := parse_payloadBytes (sendPacketPayload l r f s m)
    (by rw [sendPacketPayload_eq]; norm_num)
    (by rw [sendPacketPayload_eq]; norm_num)
    (by rw [sendPacketPayload_eq]; exact hl)
    (by rw [sendPacketPayload_eq]; exact hr)
    (by rw [sendPacketPayload_eq]; exact hf)
    (by rw [sendPacketPayload_eq]; exact hs)
    (by rw [sendPacketPayload_eq]; exact hm)
    hcrc
  have hmagic : (sendPacketPayload l r f s m).magic = 0xA5 := rfl
  have hver : (sendPacketPayload l r f s m).version = 1 := rfl
  unfold decodePacket
  rw [hparse]
  simp [hmagic, hver, calc_crc_sendPacket]

/-- C2: for every format-A packet with in-range fields (statuses 0..3,
one flags byte, 16-bit sequence, 32-bit sender clock), the transmitter
encode produces magic 0xA5, version 1 and a trailing XOR checksum over
the preceding bytes, the receiver validation of `onRecv` accepts the
serialized bytes (length, magic, version and checksum checks all pass),
and the decoded struct is exactly the encoded one, so every field value
the transmitter encoded is recovered. -/
theorem decode_encode_roundtrip (l r f s m : Nat)
    (hl : l ≤ 3) (hr : r ≤ 3) (hf : f < 256) (hs : s < 65536)
    (hm : m < 4294967296) :
    decodePacket (payloadBytes (sendPacketPayload l r f s m)) =
      some (sendPacketPayload l r f s m)
    ∧ (sendPacketPayload l r f s m).magic = 0xA5
    ∧ (sendPacketPayload l r f s m).version = 1
    ∧ (sendPacketPayload l r f s m).leftStatus = l
    ∧ (sendPacketPayload l r f s m).rightStatus = r
    ∧ (sendPacketPayload l r f s m).flags = f
    ∧ (sendPacketPayload l r f s m).seq = s
    ∧ (sendPacketPayload l r f s m).ms = m
    ∧ calc_crc (sendPacketPayload l r f s m) =
        (sendPacketPayload l r f s m).crc :=
  ⟨decode_encode_eq l r f s m (by omega) (by omega) hf hs hm,
   rfl, rfl, rfl, rfl, rfl, rfl, rfl, calc_crc_sendPacket l r f s m⟩

theorem decode_encode_roundtrip_witness :
    1 ≤ 3 ∧ 0 ≤ 3 ∧ 1 < 256 ∧ 5 < 65536 ∧ 100 < 4294967296 ∧
    (decodePacket (payloadBytes (sendPacketPayload 1 0 1 5 100)) =
      some (sendPacketPayload 1 0 1 5 100)
    ∧ (sendPacketPayload 1 0 1 5 100).magic = 0xA5
    ∧ (sendPacketPayload 1 0 1 5 100).version = 1
    ∧ (sendPacketPayload 1 0 1 5 100).leftStatus = 1
    ∧ (sendPacketPayload 1 0 1 5 100).rightStatus = 0
    ∧ (sendPacketPayload 1 0 1 5 100).flags = 1
    ∧ (sendPacketPayload 1 0 1 5 100).seq = 5
    ∧ (sendPacketPayload 1 0 1 5 100).ms = 100
    ∧ calc_crc (sendPacketPayload 1 0 1 5 100) =
        (sendPacketPayload 1 0 1 5 100).crc) :=
  ⟨by decide, by decide, by decide, by decide, by decide,
    decode_encode_roundtrip 1 0 1 5 100 (by decide) (by decide)
      (by decide) (by decide) (by decide)⟩

/-! ## Receiver state (part_003 lines 62-80) and the `onRecv` callback
(lines 141-166) together with the link supervision in `loop`
(lines 221-224). -/

/-- The `Mode` enum of part_003 (lines 62-69). -/
inductive Mode where
  | booting
  | espnowInit
  | waitingForLink
  | waitingForData
  | running
  | error
deriving DecidableEq

/-- The mutable receiver state of part_003 that the radio path touches:
the two decoded statuses, the data and link flags, the lifecycle mode
and the receipt timestamp. -/
structure RxState where
  leftStatus : Nat
  rightStatus : Nat
  haveSeenData : Bool
  linkSeen : Bool
  mode : Mode
  lastPktMs : Nat
deriving DecidableEq

/-- The `onRecv` callback of part_003 (lines 141-166): validate the
packet (length, magic, version, checksum — rejecting leaves every state
variable untouched), then overwrite the statuses, the data flag, the
link flag and the receipt time, and finally run the mode transition
logic on the updated data flag. -/
def onRecvStep (st : RxState) (bytes : List Nat) (now : Nat) : RxState :=
  match decodePacket bytes with
  | none => st
  | some p =>
    let hsd : Bool := decide (p.flags &&& 1 ≠ 0)
    let newMode :=
      if hsd = true ∧ st.mode ≠ Mode.running then Mode.running
      else if hsd = false ∧ st.mode = Mode.running then Mode.waitingForData
      else if hsd = false ∧ st.mode = Mode.waitingForLink then
        Mode.waitingForData
      else st.mode
    { leftStatus := p.leftStatus, rightStatus := p.rightStatus,
      haveSeenData := hsd, linkSeen := true, lastPktMs := now,
      mode := newMode }

/-- The link supervision of the part_003 `loop` (lines 221-224): after
more than `LINK_TIMEOUT_MS = 1000` of silence with the link previously
seen, clear the link and data flags, blank the statuses and regress to
`DBG_WAITING_FOR_LINK`. -/
def loopLinkStep (st : RxState) (now : Nat) : RxState :=
  if st.linkSeen = true ∧ sub32 now st.lastPktMs > 1000 then
    { leftStatus := 0, rightStatus := 0, haveSeenData := false,
      linkSeen := false, mode := Mode.waitingForLink,
      lastPktMs := st.lastPktMs }
  else st

/-! ## Single-bit corruption of an encoded packet. -/

/-- Flip bit `k` (bit `k % 8` of byte `k / 8`) of a byte string. -/
def flipBit (bytes : List Nat) (k : Nat) : List Nat :=
  bytes.set (k / 8) (bytes.getD (k / 8) 0 ^^^ (1 <<< (k % 8)))

theorem foldl_xor_shift (l : List Nat) (a : Nat) :
    l.foldl (fun x b => x ^^^ b) a =
      a ^^^ l.foldl (fun x b => x ^^^ b) 0 := by
  induction l generalizing a with
  | nil => simp
  | cons c l ih =>
      simp only [List.foldl_cons]
      rw [ih (a ^^^ c), ih (0 ^^^ c), Nat.zero_xor, Nat.xor_assoc]

theorem xorBytes_cons (c : Nat) (l : List Nat) :
    xorBytes (c :: l) = c ^^^ xorBytes l := by
  simp only [xorBytes, List.foldl_cons]
  rw [foldl_xor_shift l (0 ^^^ c), Nat.zero_xor]

theorem xorBytes_set (l : List Nat) :
    ∀ j, j < l.length → ∀ t,
      xorBytes (l.set j (l.getD j 0 ^^^ t)) = xorBytes l ^^^ t := by
  induction l with
  | nil => intro j hj; simp at hj
  | cons c l ih =>
      intro j hj t
      cases j with
      | zero =>
          simp only [List.set, List.getD_cons_zero, xorBytes_cons]
          rw [Nat.xor_assoc, Nat.xor_assoc, Nat.xor_comm t (xorBytes l)]
      | succ j =>
          simp only [List.set, List.getD_cons_succ, xorBytes_cons]
          rw [ih j (by simpa using hj) t, Nat.xor_assoc]

theorem xor_ne_self {t : Nat} (a : Nat) (ht : t ≠ 0) : a ^^^ t ≠ a := by
  intro h
  apply ht
  calc t = (a ^^^ a) ^^^ t := by rw [Nat.xor_self, Nat.zero_xor]
    _ = a ^^^ (a ^^^ t) := by rw [Nat.xor_assoc]
    _ = a ^^^ a := by rw [h]
    _ = 0 := Nat.xor_self a

/-- If the checksum comparison is doomed to fail, the receiver
validation rejects, whatever the magic and version comparisons say. -/
theorem decode_none_of_crc_mismatch {bs : List Nat}
    (h : ∀ q, parsePayload bs = some q → calc_crc q ≠ q.crc) :
    decodePacket bs = none := by
  unfold decodePacket
  cases hp : parsePayload bs with
  | none => rfl
  | some q =>
      show (if q.magic ≠ 0xA5 ∨ q.version ≠ 1 then none
        else if calc_crc q ≠ q.crc then none else some q) = none
      by_cases h1 : q.magic ≠ 0xA5 ∨ q.version ≠ 1
      · rw [if_pos h1]
      · rw [if_neg h1, if_pos (h q hp)]

/-- Parsing an explicit 12-byte string of in-range bytes and
re-serializing reproduces the byte string. -/
theorem payloadBytes_parse12 (c0 c1 c2 c3 c4 c5 c6 c7 c8 c9 c10 c11 : Nat)
    (h0 : c0 < 256) (h1 : c1 < 256) (h2 : c2 < 256) (h3 : c3 < 256)
    (h4 : c4 < 256) (h5 : c5 < 256) (h6 : c6 < 256) (h7 : c7 < 256)
    (h8 : c8 < 256) (h9 : c9 < 256) (h10 : c10 < 256) (h11 : c11 < 256) :
    parsePayload [c0, c1, c2, c3, c4, c5, c6, c7, c8, c9, c10, c11] =
      some { magic := c0, version := c1, leftStatus := c2, rightStatus := c3,
             flags := c4, seq := c5 + 256 * c6,
             ms := c7 + 256 * c8 + 65536 * c9 + 16777216 * c10, crc := c11 }
    ∧ payloadBytes
        { magic := c0, version := c1, leftStatus := c2, rightStatus := c3,
          flags := c4, seq := c5 + 256 * c6,
          ms := c7 + 256 * c8 + 65536 * c9 + 16777216 * c10, crc := c11 } =
      [c0, c1, c2, c3, c4, c5, c6, c7, c8, c9, c10, c11] := by
  constructor
  · rfl
  · simp only [payloadBytes, List.cons.injEq, and_true]
    refine ⟨?_, ?_, ?_, ?_, ?_, ?_, ?_, ?_, ?_, ?_, ?_, ?_⟩ <;> omega

/-- A 12-byte string whose trailing byte disagrees with the XOR of the
first 11 bytes is rejected by the receiver validation. -/
theorem decode_none_of_xor (bs : List Nat) (hlen : bs.length = 12)
    (hlt : ∀ b ∈ bs, b < 256)
    (hx : xorBytes (bs.take 11) ≠ bs.getD 11 0) :
    decodePacket bs = none := by
  apply decode_none_of_crc_mismatch
  intro q hq
  rcases bs with _ | ⟨c0, _ | ⟨c1, _ | ⟨c2, _ | ⟨c3, _ | ⟨c4, _ | ⟨c5,
    _ | ⟨c6, _ | ⟨c7, _ | ⟨c8, _ | ⟨c9, _ | ⟨c10, _ | ⟨c11, rest⟩⟩⟩⟩⟩⟩⟩⟩⟩⟩⟩⟩
  all_goals first
    | (exfalso; simp only [List.length_cons, List.length_nil] at hlen; omega)
    | skip
  rcases rest with _ | ⟨c12, rest⟩
  · simp only [List.mem_cons, List.not_mem_nil, or_false] at hlt
    have h0 : c0 < 256 := hlt c0 (by tauto)
    have h1 : c1 < 256 := hlt c1 (by tauto)
    have h2 : c2 < 256 := hlt c2 (by tauto)
    have h3 : c3 < 256 := hlt c3 (by tauto)
    have h4 : c4 < 256 := hlt c4 (by tauto)
    have h5 : c5 < 256 := hlt c5 (by tauto)
    have h6 : c6 < 256 := hlt c6 (by tauto)
    have h7 : c7 < 256 := hlt c7 (by tauto)
    have h8 : c8 < 256 := hlt c8 (by tauto)
    have h9 : c9 < 256 := hlt c9 (by tauto)
    have h10 : c10 < 256 := hlt c10 (by tauto)
    have h11 : c11 < 256 := hlt c11 (by tauto)
    obtain ⟨hp, hpb⟩ := payloadBytes_parse12 c0 c1 c2 c3 c4 c5 c6 c7 c8 c9
      c10 c11 h0 h1 h2 h3 h4 h5 h6 h7 h8 h9 h10 h11
    rw [hp, Option.some_inj] at hq
    subst hq
    unfold calc_crc
    rw [hpb]
    simpa using hx
  · exfalso; simp only [List.length_cons, List.length_nil] at hlen; omega

/-- Flipping any single bit of a 12-byte string that satisfies the XOR
checksum invariant makes the receiver validation reject it. -/
theorem flip_rejected_core (bs : List Nat) (hlen : bs.length = 12)
    (hlt : ∀ b ∈ bs, b < 256)
    (hxor : xorBytes (bs.take 11) = bs.getD 11 0)
    (k : Nat) (hk : k < 96) :
    decodePacket (flipBit bs k) = none := by
  obtain ⟨j, mm, rfl, hm8, hj12⟩ :
      ∃ j mm, k = 8 * j + mm ∧ mm < 8 ∧ j < 12 :=
    ⟨k / 8, k % 8, by omega, by omega, by omega⟩
  have hdiv : (8 * j + mm) / 8 = j := by omega
  have hmod : (8 * j + mm) % 8 = mm := by omega
  have htpow : (1 : Nat) <<< mm = 2 ^ mm := by
    rw [Nat.shiftLeft_eq, Nat.one_mul]
  have ht0 : (1 : Nat) <<< mm ≠ 0 := by
    rw [htpow]; exact (Nat.pos_pow_of_pos mm (by norm_num)).ne'
  have ht256 : (1 : Nat) <<< mm < 256 := by
    rw [htpow]
    calc 2 ^ mm ≤ 2 ^ 7 :=
          Nat.pow_le_pow_right (by norm_num) (by omega)
      _ < 256 := by norm_num
  have hgetj : bs.getD j 0 < 256 := by
    have hj' : j < bs.length := by omega
    rw [List.getD_eq_getElem (l := bs) 0 hj']
    exact hlt _ (List.getElem_mem hj')
  simp only [flipBit, hdiv, hmod]
  apply decode_none_of_xor
  · rw [List.length_set]; exact hlen
  · intro b hb
    rcases List.mem_or_eq_of_mem_set hb with h | h
    · exact hlt b h
    · subst h
      exact Nat.xor_lt_two_pow (n := 8) (by simpa using hgetj)
        (by simpa using ht256)
  · rw [List.set_take]
    by_cases hj11 : j = 11
    · subst hj11
      rw [List.set_eq_of_length_le (by rw [List.length_take]; omega)]
      have hg : (bs.set 11 (bs.getD 11 0 ^^^ 1 <<< mm)).getD 11 0 =
          bs.getD 11 0 ^^^ 1 <<< mm := by
        simp only [List.getD_eq_getElem?_getD]
        rw [List.getElem?_set_self (by omega)]
        rfl
      rw [hg, hxor]
      exact fun h => xor_ne_self (bs.getD 11 0) ht0 h.symm
    · have hg : (bs.set j (bs.getD j 0 ^^^ 1 <<< mm)).getD 11 0 =
          bs.getD 11 0 := by
        simp only [List.getD_eq_getElem?_getD]
        rw [List.getElem?_set_ne hj11]
      have hgt : (bs.take 11).getD j 0 = bs.getD j 0 := by
        simp only [List.getD_eq_getElem?_getD]
        rw [List.getElem?_take]
        rw [if_pos (by omega)]
      have hset : xorBytes ((bs.take 11).set j (bs.getD j 0 ^^^ 1 <<< mm)) =
          xorBytes (bs.take 11) ^^^ 1 <<< mm := by
        rw [← hgt]
        exact xorBytes_set (bs.take 11) j
          (by rw [List.length_take]; omega) (1 <<< mm)
      rw [hg, hset, hxor]
      exact xor_ne_self (bs.getD 11 0) ht0

/-- C3 counterexample: a format-A encoded packet is 12 bytes
(magic, version, leftStatus, rightStatus, flags, 2-byte sequence,
4-byte sender clock, checksum), not 11 bytes as the claim states, and
an 11-byte string (here the first 11 bytes of a valid encoded packet)
is rejected outright by the length comparison of the receiver, so no
valid 11-byte format-A encoded packet exists. -/
theorem formatA_packet_not_11_bytes :
    (payloadBytes (sendPacketPayload 1 0 1 5 100)).length = 12 ∧
    (payloadBytes (sendPacketPayload 1 0 1 5 100)).length ≠ 11 ∧
    decodePacket ((payloadBytes (sendPacketPayload 1 0 1 5 100)).take 11) =
      none := by decide

/-- C3 (amended): a valid format-A encoded packet is 12 bytes; flipping
any single one of its 96 bits causes the receiver validation of
`onRecv` to reject the packet (the magic, version, or XOR-checksum
comparison fails, checked in that order after the length comparison),
and the `onRecv` step then leaves every piece of receiver state
(leftStatus, rightStatus, haveSeenData, linkSeen, mode, lastPktMs)
exactly as it was — no partial application. -/
theorem flip_any_bit_rejected (l r f s m k : Nat)
    (hl : l ≤ 3) (hr : r ≤ 3) (hf : f < 256) (hs : s < 65536)
    (hm : m < 4294967296) (hk : k < 96) :
    decodePacket (flipBit (payloadBytes (sendPacketPayload l r f s m)) k) =
      none
    ∧ ∀ (st : RxState) (now : Nat),
        onRecvStep st (flipBit (payloadBytes (sendPacketPayload l r f s m)) k)
          now = st := by
  have hlen : (payloadBytes (sendPacketPayload l r f s m)).length = 12 := rfl
  have hlt := payloadBytes_lt_256 (sendPacketPayload l r f s m)
  have hcrc : (sendPacketPayload l r f s m).crc < 256 := by
    rw [sendPacketPayload_eq]; exact make_crc_lt_256 _
  have hxor : xorBytes ((payloadBytes (sendPacketPayload l r f s m)).take 11) =
      (payloadBytes (sendPacketPayload l r f s m)).getD 11 0 := by
    have h1 : (payloadBytes (sendPacketPayload l r f s m)).getD 11 0 =
        (sendPacketPayload l r f s m).crc % 256 := rfl
    have h2 : xorBytes ((payloadBytes (sendPacketPayload l r f s m)).take 11) =
        calc_crc (sendPacketPayload l r f s m) := rfl
    rw [h1, h2, calc_crc_sendPacket, Nat.mod_eq_of_lt hcrc]
  have hmain := flip_rejected_core _ hlen hlt hxor k hk
  refine ⟨hmain, fun st now => ?_⟩
  unfold onRecvStep
  rw [hmain]

theorem flip_any_bit_rejected_witness :
    1 ≤ 3 ∧ 0 ≤ 3 ∧ 1 < 256 ∧ 5 < 65536 ∧ 100 < 4294967296 ∧ 40 < 96 ∧
    (decodePacket (flipBit (payloadBytes (sendPacketPayload 1 0 1 5 100)) 40) =
        none
      ∧ ∀ (st : RxState) (now : Nat),
          onRecvStep st
            (flipBit (payloadBytes (sendPacketPayload 1 0 1 5 100)) 40) now =
            st) :=
  ⟨by decide, by decide, by decide, by decide, by decide, by decide,
    flip_any_bit_rejected 1 0 1 5 100 40 (by decide) (by decide) (by decide)
      (by decide) (by decide) (by decide)⟩

/-! ## Web receiver data model (ESP_RX_WEB.ino): packet bits, effect
enables, turn smoothing, priority arbiter, tail fill. -/

/-- The `StateBits` bitfield shared by ESP_TX_WEB and ESP_RX_WEB
(six named condition booleans; the two reserved bits carry no data). -/
structure StateBits where
  left_on : Bool
  right_on : Bool
  ap_on : Bool
  charging : Bool
  plugged : Bool
  track_on : Bool
deriving DecidableEq

/-- The `EffectEn` flags of ESP_RX_WEB (lines 74-81): one master
`alerts` flag and one enable per category. -/
structure EffectEn where
  alerts : Bool
  turn : Bool
  charging : Bool
  ap : Bool
  track : Bool
  plugged : Bool
deriving DecidableEq

/-- Priority constants of ESP_RX_WEB line 108. -/
def P_TURN : Nat := 0

def P_CHARGING : Nat := 1

def P_AUTOPILOT : Nat := 2

def P_TRACK : Nat := 3

def P_PLUGGED : Nat := 4

def P_NONE : Nat := 255

/-- `pickPriority` of ESP_RX_WEB (lines 165-173). -/
def pickPriority (eff : EffectEn) (turnActive : Bool) (b : StateBits) : Nat :=
  if eff.alerts = false then P_NONE
  else if (turnActive && eff.turn) = true then P_TURN
  else if (b.charging && eff.charging) = true then P_CHARGING
  else if (b.ap_on && eff.ap) = true then P_AUTOPILOT
  else if (b.track_on && eff.track) = true then P_TRACK
  else if (b.plugged && eff.plugged) = true then P_PLUGGED
  else P_NONE

/-- C4: for every combination of the master alerts flag, the per-category
enables, the debounced turn state and the raw condition bits,
`pickPriority` returns exactly one of
{NONE, TURN, CHARGING, AUTOPILOT, TRACK, PLUGGED}; the master flag off
forces NONE whatever the other inputs; and each non-NONE value is
returned exactly when its own condition and enable hold and every
higher-priority category (in the fixed order
Turn > Charging > Autopilot > Track > Plugged) does not fire. -/
theorem pickPriority_spec (ea et ec eap etr ep ta lb rb ab cb pb tb : Bool) :
    (pickPriority ⟨ea, et, ec, eap, etr, ep⟩ ta ⟨lb, rb, ab, cb, pb, tb⟩ =
        P_NONE ∨
      pickPriority ⟨ea, et, ec, eap, etr, ep⟩ ta ⟨lb, rb, ab, cb, pb, tb⟩ =
        P_TURN ∨
      pickPriority ⟨ea, et, ec, eap, etr, ep⟩ ta ⟨lb, rb, ab, cb, pb, tb⟩ =
        P_CHARGING ∨
      pickPriority ⟨ea, et, ec, eap, etr, ep⟩ ta ⟨lb, rb, ab, cb, pb, tb⟩ =
        P_AUTOPILOT ∨
      pickPriority ⟨ea, et, ec, eap, etr, ep⟩ ta ⟨lb, rb, ab, cb, pb, tb⟩ =
        P_TRACK ∨
      pickPriority ⟨ea, et, ec, eap, etr, ep⟩ ta ⟨lb, rb, ab, cb, pb, tb⟩ =
        P_PLUGGED)
    ∧ (ea = false →
        pickPriority ⟨ea, et, ec, eap, etr, ep⟩ ta ⟨lb, rb, ab, cb, pb, tb⟩ =
          P_NONE)
    ∧ (pickPriority ⟨ea, et, ec, eap, etr, ep⟩ ta ⟨lb, rb, ab, cb, pb, tb⟩ =
          P_TURN ↔ ea = true ∧ (ta && et) = true)
    ∧ (pickPriority ⟨ea, et, ec, eap, etr, ep⟩ ta ⟨lb, rb, ab, cb, pb, tb⟩ =
          P_CHARGING ↔
        ea = true ∧ (ta && et) = false ∧ (cb && ec) = true)
    ∧ (pickPriority ⟨ea, et, ec, eap, etr, ep⟩ ta ⟨lb, rb, ab, cb, pb, tb⟩ =
          P_AUTOPILOT ↔
        ea = true ∧ (ta && et) = false ∧ (cb && ec) = false ∧
          (ab && eap) = true)
    ∧ (pickPriority ⟨ea, et, ec, eap, etr, ep⟩ ta ⟨lb, rb, ab, cb, pb, tb⟩ =
          P_TRACK ↔
        ea = true ∧ (ta && et) = false ∧ (cb && ec) = false ∧
          (ab && eap) = false ∧ (tb && etr) = true)
    ∧ (pickPriority ⟨ea, et, ec, eap, etr, ep⟩ ta ⟨lb, rb, ab, cb, pb, tb⟩ =
          P_PLUGGED ↔
        ea = true ∧ (ta && et) = false ∧ (cb && ec) = false ∧
          (ab && eap) = false ∧ (tb && etr) = false ∧
          (pb && ep) = true) := by
  unfold pickPriority
  split_ifs with h1 h2 h3 h4 h5 h6 <;>
    refine ⟨?_, ?_, ?_, ?_, ?_, ?_, ?_⟩ <;>
    simp_all [P_TURN, P_CHARGING, P_AUTOPILOT, P_TRACK, P_PLUGGED, P_NONE]

theorem pickPriority_spec_witness :
    pickPriority ⟨true, true, true, true, true, true⟩ true
        ⟨true, false, false, true, false, false⟩ = P_TURN
    ∧ (false = false →
        pickPriority ⟨false, true, true, true, true, true⟩ true
          ⟨true, false, false, true, false, false⟩ = P_NONE) := by
  constructor
  · exact ((pickPriority_spec true true true true true true true
      true false false true false false).2.2.1).mpr (by decide)
  · intro h
    exact (pickPriority_spec false true true true true true true
      true false false true false false).2.1 h

/-- Per-side turn smoothing state of ESP_RX_WEB (line 71). -/
structure TurnSide where
  active : Bool
  lastSeenMs : Nat
deriving DecidableEq

/-- `updateTurnSide` of ESP_RX_WEB (lines 160-162): a true raw sample
sets `active` and refreshes `lastSeenMs`; a false sample clears `active`
only when more than `holdMs` (`g_turnLossHoldMs`) has elapsed since
`lastSeenMs`, and never touches `lastSeenMs`. -/
def updateTurnSide (ts : TurnSide) (rawOn : Bool) (now holdMs : Nat) :
    TurnSide :=
  if rawOn = true then { active := true, lastSeenMs := now }
  else if ts.active = true ∧ sub32 now ts.lastSeenMs > holdMs then
    { active := false, lastSeenMs := ts.lastSeenMs }
  else ts

theorem updateTurnSide_hold (ts : TurnSide) (t holdMs : Nat)
    (h1 : ts.lastSeenMs ≤ t) (h2 : t < 4294967296)
    (h3 : t - ts.lastSeenMs ≤ holdMs) :
    updateTurnSide ts false t holdMs = ts := by
  unfold updateTurnSide
  rw [if_neg (by simp), if_neg]
  rw [sub32_eq h1 h2]
  exact fun hc => absurd hc.2 (by omega)

theorem updateTurnSide_foldl_hold (ts : TurnSide) (holdMs : Nat)
    (gaps : List Nat)
    (h : ∀ t ∈ gaps, ts.lastSeenMs ≤ t ∧ t < 4294967296 ∧
      t - ts.lastSeenMs ≤ holdMs) :
    gaps.foldl (fun s t => updateTurnSide s false t holdMs) ts = ts := by
  induction gaps with
  | nil => rfl
  | cons g gs ih =>
      simp only [List.foldl_cons]
      obtain ⟨hg1, hg2, hg3⟩ := h g (List.mem_cons_self g gs)
      rw [updateTurnSide_hold ts g holdMs hg1 hg2 hg3]
      exact ih (fun t ht => h t (List.mem_cons_of_mem g ht))

/-- C5: on each render tick, a true raw sample sets `active` and
refreshes the last-true timestamp; a false sample within the hold
threshold leaves the state exactly as it was (so across any run of
false ticks all within the threshold, `active` stays continuously
true); and once the elapsed time since the last true sample exceeds the
threshold, a false tick clears `active`. -/
theorem updateTurnSide_spec (ts : TurnSide) (now holdMs : Nat)
    (hle : ts.lastSeenMs ≤ now) (hnow : now < 4294967296) :
    updateTurnSide ts true now holdMs =
      { active := true, lastSeenMs := now }
    ∧ (now - ts.lastSeenMs ≤ holdMs →
        updateTurnSide ts false now holdMs = ts)
    ∧ (ts.active = true → now - ts.lastSeenMs > holdMs →
        updateTurnSide ts false now holdMs =
          { active := false, lastSeenMs := ts.lastSeenMs })
    ∧ (∀ gaps : List Nat,
        (∀ t ∈ gaps, ts.lastSeenMs ≤ t ∧ t < 4294967296 ∧
          t - ts.lastSeenMs ≤ holdMs) →
        gaps.foldl (fun s t => updateTurnSide s false t holdMs) ts = ts) := by
  refine ⟨rfl, ?_, ?_, updateTurnSide_foldl_hold ts holdMs⟩
  · exact updateTurnSide_hold ts now holdMs hle hnow
  · intro ha hgap
    unfold updateTurnSide
    rw [if_neg (by simp), if_pos]
    exact ⟨ha, by rw [sub32_eq hle hnow]; omega⟩

theorem updateTurnSide_spec_witness :
    100 ≤ 150 ∧ 150 < 4294967296 ∧
    (updateTurnSide ⟨true, 100⟩ true 150 200 =
      { active := true, lastSeenMs := 150 }
    ∧ (150 - (100 : Nat) ≤ 200 →
        updateTurnSide ⟨true, 100⟩ false 150 200 = ⟨true, 100⟩)
    ∧ ((⟨true, 100⟩ : TurnSide).active = true → 150 - (100 : Nat) > 200 →
        updateTurnSide ⟨true, 100⟩ false 150 200 =
          { active := false, lastSeenMs := 100 })
    ∧ (∀ gaps : List Nat,
        (∀ t ∈ gaps, 100 ≤ t ∧ t < 4294967296 ∧ t - 100 ≤ 200) →
        gaps.foldl (fun s t => updateTurnSide s false t 200)
          ⟨true, 100⟩ = ⟨true, 100⟩)) :=
  ⟨by decide, by decide,
    updateTurnSide_spec ⟨true, 100⟩ 150 200 (by decide) (by decide)⟩

/-! ## Tail fill of the renderer (ESP_RX_WEB lines 150-153). -/

/-- Start index of `fillTail`: `int16_t st = n - tail; if (st < 0)
st = 0;`, computed in Int exactly as the int16 arithmetic does for the
configured strip lengths (at most 600) and tail sizes (at most 255). -/
def fillTailStart (numPixels tail : Nat) : Int :=
  if (numPixels : Int) - (tail : Int) < 0 then 0
  else (numPixels : Int) - (tail : Int)

/-- The pixel indices written by the `fillTail` loop
`for (int16_t i = st; i < n; ++i) s.setPixelColor(i, col);`. -/
def fillTailIndices (numPixels tail : Nat) : List Nat :=
  List.range' (fillTailStart numPixels tail).toNat
    (numPixels - (fillTailStart numPixels tail).toNat)

/-- C10: `fillTail` writes pixel colors only at indices in
[0, numPixels): the start index is clamped at 0 when the tail exceeds
the strip length, an oversized tail recolors exactly the whole strip,
and the number of written pixels is min tail numPixels. -/
theorem fillTail_spec (numPixels tail : Nat) :
    (∀ i ∈ fillTailIndices numPixels tail, i < numPixels)
    ∧ (numPixels ≤ tail →
        fillTailIndices numPixels tail = List.range numPixels)
    ∧ (fillTailIndices numPixels tail).length = min tail numPixels := by
  have hst : (fillTailStart numPixels tail).toNat = numPixels - tail := by
    unfold fillTailStart
    split <;> omega
  refine ⟨?_, ?_, ?_⟩
  · intro i hi
    rw [fillTailIndices, hst, List.mem_range'] at hi
    obtain ⟨d, hd, rfl⟩ := hi
    omega
  · intro h
    rw [fillTailIndices, hst, List.range_eq_range']
    have h1 : numPixels - tail = 0 := by omega
    rw [h1]
    rfl
  · rw [fillTailIndices, List.length_range', hst]
    omega

theorem fillTail_spec_witness :
    (∀ i ∈ fillTailIndices 5 9, i < 5)
    ∧ (5 ≤ 9 → fillTailIndices 5 9 = List.range 5)
    ∧ (fillTailIndices 5 9).length = min 9 5 :=
  fillTail_spec 5 9

/-! ## Transmitters: part_002 (format A) and ESP_TX_WEB (format B). -/

/-- The mutable transmitter state of part_002 (lines 47, 63-68 and the
static locals of `sendPacket`, lines 79): current statuses and data
flag, the previous values last transmitted, the sequence counter and
the two timers. -/
structure TxAState where
  leftStatus : Nat
  rightStatus : Nat
  haveSeenData : Bool
  prevL : Nat
  prevR : Nat
  prevFlags : Nat
  seq : Nat
  lastFrameMs : Nat
  lastHeartbeatMs : Nat
deriving DecidableEq

/-- `sendPacket(force)` of part_002 (lines 78-97): compute the flags
byte, compare against the values of the previous transmission, and
`if (!changed && !force) return;` — otherwise increment the uint16
sequence counter, build the packet and record the transmitted values. -/
def txSendPacket (st : TxAState) (force : Bool) (now : Nat) :
    Option Payload × TxAState :=
  let flags := if st.haveSeenData = true then 1 else 0
  if (¬(st.leftStatus ≠ st.prevL ∨ st.rightStatus ≠ st.prevR ∨
        flags ≠ st.prevFlags)) ∧ force = false then (none, st)
  else
    let s := (st.seq + 1) % 65536
    (some (sendPacketPayload st.leftStatus st.rightStatus flags s now),
     { st with seq := s, prevL := st.leftStatus, prevR := st.rightStatus,
               prevFlags := flags })

/-- The heartbeat-and-timeout block of the part_002 `loop`
(lines 143-151), for an iteration in which no CAN frame was read:
once `HEARTBEAT_MS = 150` has elapsed since the last heartbeat check,
either force-send the data-timeout reset (when data was seen and
`FRAME_TIMEOUT_MS = 700` has elapsed since the last frame) or call
`sendPacket(false)`, which transmits only if the encoded state
changed. -/
def txAHeartbeatTick (st : TxAState) (now : Nat) :
    Option Payload × TxAState :=
  if sub32 now st.lastHeartbeatMs > 150 then
    if st.haveSeenData = true ∧ sub32 now st.lastFrameMs > 700 then
      let st1 := { st with haveSeenData := false, leftStatus := 0,
                           rightStatus := 0 }
      let r := txSendPacket st1 true now
      (r.1, { r.2 with lastHeartbeatMs := now })
    else
      let r := txSendPacket st false now
      (r.1, { r.2 with lastHeartbeatMs := now })
  else (none, st)

/-- The transmitter state of ESP_TX_WEB (lines 47-50): the packet bits,
the uint32 sequence counter and the last-send timestamp. -/
structure TxBState where
  bits : StateBits
  seq : Nat
  lastSendMs : Nat
deriving DecidableEq

/-- `send_now` of ESP_TX_WEB (lines 77-80): increment the uint32
sequence and transmit the current bits, unconditionally. -/
def send_now (st : TxBState) : (Nat × StateBits) × TxBState :=
  let s := (st.seq + 1) % 4294967296
  ((s, st.bits), { st with seq := s })

/-- The heartbeat block of the ESP_TX_WEB `loop` (lines 141-145):
`if (now - g_lastSendMs >= HEARTBEAT_MS) { send_now(); g_lastSendMs =
now; }` with `HEARTBEAT_MS = 120`. -/
def txBLoopTick (st : TxBState) (now : Nat) :
    Option (Nat × StateBits) × TxBState :=
  if sub32 now st.lastSendMs ≥ 120 then
    let r := send_now st
    (some r.1, { r.2 with lastSendMs := now })
  else (none, st)

/-- C6 counterexample: the part_002 transmitter does not send a packet
on a heartbeat tick when no encoded state bit changed since the last
transmission: in the concrete state below no transmission has occurred
for 1200 time units (far beyond the 150-unit heartbeat period, with
CAN data still fresh), yet the heartbeat tick emits nothing, because
its heartbeat path calls `sendPacket(false)`, which returns without
sending when nothing changed. -/
theorem part002_heartbeat_suppressed :
    (txAHeartbeatTick ⟨1, 0, true, 1, 0, 1, 7, 1000, 0⟩ 1200).1 = none
    ∧ sub32 1200 0 > 150 := by decide

/-- C6 (amended): the ESP_TX_WEB transmitter sends on every loop
iteration at which at least one heartbeat period (120 time units) has
elapsed since the last transmission, even if no encoded state bit
changed, and resets its send timer, so under continuous looping its
transmission gap never exceeds the heartbeat period (plus loop
latency); the part_002 transmitter instead suppresses the heartbeat
send whenever no encoded state bit changed since the last transmission
(its heartbeat path sends only on change or on the data-timeout
transition), so for it radio silence does not imply the link is down. -/
theorem heartbeat_spec (stB : TxBState) (stA : TxAState) (now : Nat)
    (hB1 : stB.lastSendMs ≤ now) (hA1 : stA.lastHeartbeatMs ≤ now)
    (hA2 : stA.lastFrameMs ≤ now) (hnow : now < 4294967296) :
    (120 ≤ now - stB.lastSendMs →
      (txBLoopTick stB now).1 = some ((stB.seq + 1) % 4294967296, stB.bits)
      ∧ (txBLoopTick stB now).2.lastSendMs = now)
    ∧ (now - stB.lastSendMs < 120 → txBLoopTick stB now = (none, stB))
    ∧ (stA.prevL = stA.leftStatus → stA.prevR = stA.rightStatus →
       stA.prevFlags = (if stA.haveSeenData = true then 1 else 0) →
       now - stA.lastFrameMs ≤ 700 →
       (txAHeartbeatTick stA now).1 = none) := by
  refine ⟨?_, ?_, ?_⟩
  · intro h
    unfold txBLoopTick send_now
    rw [if_pos (by rw [sub32_eq hB1 hnow]; omega)]
    exact ⟨rfl, rfl⟩
  · intro h
    unfold txBLoopTick
    rw [if_neg (by rw [sub32_eq hB1 hnow]; omega)]
  · intro e1 e2 e3 hfresh
    unfold txAHeartbeatTick
    by_cases hhb : sub32 now stA.lastHeartbeatMs > 150
    · rw [if_pos hhb, if_neg]
      · unfold txSendPacket
        rw [if_pos]
        constructor
        · intro hch
          rcases hch with h | h | h
          · exact h e1.symm
          · exact h e2.symm
          · exact h e3.symm
        · rfl
      · rw [sub32_eq hA2 hnow]
        exact fun hc => absurd hc.2 (by omega)
    · rw [if_neg hhb]

theorem heartbeat_spec_witness :
    (0 : Nat) ≤ 1200 ∧ (0 : Nat) ≤ 1200 ∧ (1000 : Nat) ≤ 1200 ∧
    (1200 : Nat) < 4294967296 ∧
    ((120 ≤ (1200 : Nat) - 0 →
      (txBLoopTick ⟨⟨false, false, false, false, false, false⟩, 7, 0⟩
          1200).1 = some ((7 + 1) % 4294967296,
          ⟨false, false, false, false, false, false⟩)
      ∧ (txBLoopTick ⟨⟨false, false, false, false, false, false⟩, 7, 0⟩
          1200).2.lastSendMs = 1200)
    ∧ ((1200 : Nat) - 0 < 120 →
      txBLoopTick ⟨⟨false, false, false, false, false, false⟩, 7, 0⟩ 1200 =
        (none, ⟨⟨false, false, false, false, false, false⟩, 7, 0⟩))
    ∧ ((1 : Nat) = 1 → (0 : Nat) = 0 →
       (1 : Nat) = (if (true : Bool) = true then 1 else 0) →
       (1200 : Nat) - 1000 ≤ 700 →
       (txAHeartbeatTick ⟨1, 0, true, 1, 0, 1, 7, 1000, 0⟩ 1200).1 =
         none)) :=
  ⟨by decide, by decide, by decide, by decide,
    heartbeat_spec ⟨⟨false, false, false, false, false, false⟩, 7, 0⟩
      ⟨1, 0, true, 1, 0, 1, 7, 1000, 0⟩ 1200
      (by decide) (by decide) (by decide) (by decide)⟩

/-! ## Web receiver liveness (ESP_RX_WEB `handleStatus`, lines
468-471). -/

/-- The alive computation of `handleStatus`:
`age = (g_lastPktMs == 0) ? 0 : (now - g_lastPktMs);`
`txAlive = (g_lastPktMs != 0) && (age <= TX_ALIVE_WINDOW_MS);`
with `TX_ALIVE_WINDOW_MS = 1500` (line 120). -/
def txAlive (lastPktMs now : Nat) : Bool :=
  let age := if lastPktMs = 0 then 0 else sub32 now lastPktMs
  decide (lastPktMs ≠ 0) && decide (age ≤ 1500)

/-- C7 counterexample: the dead window of the web receiver is
`TX_ALIVE_WINDOW_MS = 1500` time units, not 700: with the last packet
recorded at time 100 and the clock at 801 — more than 700 time units of
silence — the alive flag is still true, contradicting the claim that
silence beyond 700 time units flips alive to false.  (The constant 700
in the source is `FRAME_TIMEOUT_MS`, the CAN-frame timeout of the
transmitter; the basic receiver of part_003 uses
`LINK_TIMEOUT_MS = 1000` for its link flag.) -/
theorem txAlive_window_not_700 :
    txAlive 100 801 = true ∧ 801 - 100 > 700 := by decide

/-- C7 (amended): the alive boolean of the web receiver at time `now`
is true iff some packet was recorded (`lastPktMs ≠ 0`) at a time
at least `now - 1500`, i.e. iff the elapsed silence is at most the
1500-unit dead window; with the 120-unit heartbeat of its transmitter,
one missed heartbeat (240 units of silence) leaves alive true, while
more than 1500 time units without a new packet flips alive false. -/
theorem txAlive_spec (lastPktMs now : Nat) (h0 : 0 < lastPktMs)
    (hle : lastPktMs ≤ now) (hnow : now < 4294967296) :
    (txAlive lastPktMs now = true ↔ now - lastPktMs ≤ 1500)
    ∧ (now - lastPktMs = 240 → txAlive lastPktMs now = true)
    ∧ (now - lastPktMs > 1500 → txAlive lastPktMs now = false) := by
  have hne : lastPktMs ≠ 0 := by omega
  have hfalse : (lastPktMs = 0) = False := by simp [hne]
  unfold txAlive
  simp only [hfalse, if_false, sub32_eq hle hnow]
  refine ⟨?_, ?_, ?_⟩
  · simp [hne]
  · intro h; simp [hne]; omega
  · intro h; simp [hne]; omega

theorem txAlive_spec_witness :
    (0 : Nat) < 100 ∧ (100 : Nat) ≤ 801 ∧ (801 : Nat) < 4294967296 ∧
    ((txAlive 100 801 = true ↔ (801 : Nat) - 100 ≤ 1500)
    ∧ ((801 : Nat) - 100 = 240 → txAlive 100 801 = true)
    ∧ ((801 : Nat) - 100 > 1500 → txAlive 100 801 = false)) :=
  ⟨by decide, by decide, by decide,
    txAlive_spec 100 801 (by decide) (by decide) (by decide)⟩

/-- Characterization of the `onRecv` step on an accepted packet. -/
theorem onRecvStep_some (st : RxState) (bytes : List Nat) (now : Nat)
    (p : Payload) (hp : decodePacket bytes = some p) :
    onRecvStep st bytes now =
      { leftStatus := p.leftStatus, rightStatus := p.rightStatus,
        haveSeenData := decide (p.flags &&& 1 ≠ 0), linkSeen := true,
        lastPktMs := now,
        mode :=
          if decide (p.flags &&& 1 ≠ 0) = true ∧ st.mode ≠ Mode.running then
            Mode.running
          else if decide (p.flags &&& 1 ≠ 0) = false ∧
              st.mode = Mode.running then Mode.waitingForData
          else if decide (p.flags &&& 1 ≠ 0) = false ∧
              st.mode = Mode.waitingForLink then Mode.waitingForData
          else st.mode } := by
  unfold onRecvStep
  rw [hp]

/-- C8 counterexample: with the receiver in Waiting-For-Link, a first
valid packet whose data flag is set moves the mode directly to Running,
not to Waiting-For-Data as the claim states. -/
theorem wfl_first_packet_to_running :
    (onRecvStep ⟨0, 0, false, false, Mode.waitingForLink, 0⟩
        (payloadBytes (sendPacketPayload 1 0 1 5 100)) 500).mode =
      Mode.running
    ∧ Mode.running ≠ Mode.waitingForData := by decide

/-- C8 (amended): on a valid packet, the receiver mode moves from
Waiting-For-Link to Waiting-For-Data when the data flag of the packet
is clear and directly to Running when it is set; the mode becomes
Running only when the decoded data flags itself as meaningful (or was
Running already); Running falls back to Waiting-For-Data on a valid
packet whose data flag is clear (the data-content timeout signalled by
the transmitter); a packet-accepting step only ever keeps the mode or
moves it to Running or Waiting-For-Data; and the link supervision of
the loop moves any state with the link seen — Error is unreachable with
the link seen — back to Waiting-For-Link exactly when the silence
exceeds the 1000-unit link timeout, clearing the statuses and flags,
and does nothing otherwise. -/
theorem mode_lifecycle_spec (st : RxState) (bytes : List Nat) (now : Nat)
    (p : Payload) (hp : decodePacket bytes = some p) :
    (st.mode = Mode.waitingForLink →
      (onRecvStep st bytes now).mode =
        (if p.flags &&& 1 ≠ 0 then Mode.running else Mode.waitingForData))
    ∧ ((onRecvStep st bytes now).mode = Mode.running →
        st.mode = Mode.running ∨ p.flags &&& 1 ≠ 0)
    ∧ (st.mode = Mode.running → p.flags &&& 1 = 0 →
        (onRecvStep st bytes now).mode = Mode.waitingForData)
    ∧ ((onRecvStep st bytes now).mode = st.mode ∨
        (onRecvStep st bytes now).mode = Mode.running ∨
        (onRecvStep st bytes now).mode = Mode.waitingForData)
    ∧ (∀ (st2 : RxState) (now2 : Nat), st2.linkSeen = true →
        sub32 now2 st2.lastPktMs > 1000 →
        loopLinkStep st2 now2 =
          { leftStatus := 0, rightStatus := 0, haveSeenData := false,
            linkSeen := false, mode := Mode.waitingForLink,
            lastPktMs := st2.lastPktMs })
    ∧ (∀ (st2 : RxState) (now2 : Nat),
        ¬(st2.linkSeen = true ∧ sub32 now2 st2.lastPktMs > 1000) →
        loopLinkStep st2 now2 = st2) := by
  rw [onRecvStep_some st bytes now p hp]
  have hand : p.flags &&& 1 = p.flags % 2 := Nat.and_one_is_mod p.flags
  refine ⟨?_, ?_, ?_, ?_, ?_, ?_⟩
  · intro hwfl
    by_cases hf : p.flags % 2 = 1
    · simp [hand, hf, hwfl]
    · have hf0 : p.flags % 2 = 0 := by omega
      simp [hand, hf0, hwfl]
  · intro h
    by_cases hf : p.flags % 2 = 1
    · refine Or.inr ?_
      rw [hand, hf]
      exact one_ne_zero
    · refine Or.inl ?_
      have hf0 : p.flags % 2 = 0 := by omega
      rw [hand, hf0] at h
      cases hmode : st.mode <;> rw [hmode] at h <;> simp_all
  · intro hrun hf0
    rw [hand] at hf0
    simp [hand, hf0, hrun]
  · cases hmode : st.mode <;> by_cases hf : p.flags % 2 = 1 <;>
      first
        | (have hf0 : p.flags % 2 = 0 := by omega
           simp [hand, hf, hf0, hmode])
        | simp [hand, hf, hmode]
  · intro st2 now2 hseen htime
    unfold loopLinkStep
    rw [if_pos ⟨hseen, htime⟩]
  · intro st2 now2 hcond
    unfold loopLinkStep
    rw [if_neg hcond]

theorem mode_lifecycle_spec_witness :
    decodePacket (payloadBytes (sendPacketPayload 1 0 1 5 100)) =
      some (sendPacketPayload 1 0 1 5 100) ∧
    (((⟨0, 0, false, false, Mode.waitingForLink, 0⟩ : RxState).mode =
        Mode.waitingForLink →
      (onRecvStep ⟨0, 0, false, false, Mode.waitingForLink, 0⟩
          (payloadBytes (sendPacketPayload 1 0 1 5 100)) 500).mode =
        (if (sendPacketPayload 1 0 1 5 100).flags &&& 1 ≠ 0 then
          Mode.running else Mode.waitingForData))
    ∧ ((onRecvStep ⟨0, 0, false, false, Mode.waitingForLink, 0⟩
          (payloadBytes (sendPacketPayload 1 0 1 5 100)) 500).mode =
            Mode.running →
        (⟨0, 0, false, false, Mode.waitingForLink, 0⟩ : RxState).mode =
            Mode.running ∨
          (sendPacketPayload 1 0 1 5 100).flags &&& 1 ≠ 0)
    ∧ ((⟨0, 0, false, false, Mode.waitingForLink, 0⟩ : RxState).mode =
          Mode.running →
        (sendPacketPayload 1 0 1 5 100).flags &&& 1 = 0 →
        (onRecvStep ⟨0, 0, false, false, Mode.waitingForLink, 0⟩
            (payloadBytes (sendPacketPayload 1 0 1 5 100)) 500).mode =
          Mode.waitingForData)
    ∧ ((onRecvStep ⟨0, 0, false, false, Mode.waitingForLink, 0⟩
          (payloadBytes (sendPacketPayload 1 0 1 5 100)) 500).mode =
        (⟨0, 0, false, false, Mode.waitingForLink, 0⟩ : RxState).mode ∨
        (onRecvStep ⟨0, 0, false, false, Mode.waitingForLink, 0⟩
          (payloadBytes (sendPacketPayload 1 0 1 5 100)) 500).mode =
          Mode.running ∨
        (onRecvStep ⟨0, 0, false, false, Mode.waitingForLink, 0⟩
          (payloadBytes (sendPacketPayload 1 0 1 5 100)) 500).mode =
          Mode.waitingForData)
    ∧ (∀ (st2 : RxState) (now2 : Nat), st2.linkSeen = true →
        sub32 now2 st2.lastPktMs > 1000 →
        loopLinkStep st2 now2 =
          { leftStatus := 0, rightStatus := 0, haveSeenData := false,
            linkSeen := false, mode := Mode.waitingForLink,
            lastPktMs := st2.lastPktMs })
    ∧ (∀ (st2 : RxState) (now2 : Nat),
        ¬(st2.linkSeen = true ∧ sub32 now2 st2.lastPktMs > 1000) →
        loopLinkStep st2 now2 = st2)) :=
  ⟨by decide,
    mode_lifecycle_spec ⟨0, 0, false, false, Mode.waitingForLink, 0⟩
      (payloadBytes (sendPacketPayload 1 0 1 5 100)) 500
      (sendPacketPayload 1 0 1 5 100) (by decide)⟩

/-! ## Sequence-number independence of the receive paths. -/

/-- The shared state touched by `on_data_recv` of ESP_RX_WEB
(lines 111-119 and 230-239): the latest packet (sequence and bits), the
has-packet flag and the receipt timestamp. -/
structure RxWebState where
  lastPktSeq : Nat
  lastPktBits : StateBits
  hasPkt : Bool
  lastPktMs : Nat
deriving DecidableEq

/-- `on_data_recv` of ESP_RX_WEB (lines 230-239): on a packet of the
exact size of `RxPacket` (5 bytes: 4-byte sequence plus one bits byte),
overwrite the holding cell wholesale and stamp the receipt time; any
other length is ignored. -/
def on_data_recv (st : RxWebState) (len : Nat) (pkt : Nat × StateBits)
    (now : Nat) : RxWebState :=
  if len = 5 then
    { lastPktSeq := pkt.1, lastPktBits := pkt.2, hasPkt := true,
      lastPktMs := now }
  else st

/-- Folding the part_003 `onRecv` callback over a stream of
(raw bytes, receipt time) deliveries. -/
def runRx (st : RxState) (ins : List (List Nat × Nat)) : RxState :=
  ins.foldl (fun s i => onRecvStep s i.1 i.2) st

/-- Two deliveries that carry the same statuses, flags and sender clock
at the same receipt time and differ only in the sequence field (each
with its own correctly adjusted checksum). -/
def seqVariant (a b : List Nat × Nat) : Prop :=
  a.2 = b.2 ∧ ∃ l r f s1 s2 m, l < 256 ∧ r < 256 ∧ f < 256 ∧
    s1 < 65536 ∧ s2 < 65536 ∧ m < 4294967296 ∧
    a.1 = payloadBytes (sendPacketPayload l r f s1 m) ∧
    b.1 = payloadBytes (sendPacketPayload l r f s2 m)

theorem onRecvStep_seq_blind (st : RxState) (now : Nat)
    (l r f s1 s2 m : Nat) (hl : l < 256) (hr : r < 256) (hf : f < 256)
    (hs1 : s1 < 65536) (hs2 : s2 < 65536) (hm : m < 4294967296) :
    onRecvStep st (payloadBytes (sendPacketPayload l r f s1 m)) now =
      onRecvStep st (payloadBytes (sendPacketPayload l r f s2 m)) now := by
  rw [onRecvStep_some st _ now _ (decode_encode_eq l r f s1 m hl hr hf hs1 hm),
    onRecvStep_some st _ now _ (decode_encode_eq l r f s2 m hl hr hf hs2 hm)]
  rfl

theorem runRx_seq_blind (xs ys : List (List Nat × Nat))
    (h : List.Forall₂ seqVariant xs ys) :
    ∀ st : RxState, runRx st xs = runRx st ys := by
  induction h with
  | nil => intro st; rfl
  | cons hab hrest ih =>
      intro st
      simp only [runRx, List.foldl_cons] at *
      obtain ⟨ht, l, r, f, s1, s2, m, hl, hr, hf, hs1, hs2, hm, ha, hb⟩ := hab
      rw [ha, hb, ht,
        onRecvStep_seq_blind st _ l r f s1 s2 m hl hr hf hs1 hs2 hm]
      exact ih _

/-- C9: receiver acceptance and resulting state are independent of the
sequence counter.  For the part_003 receiver, two packet streams that
pointwise differ only in the sequence field (checksums adjusted) drive
the receiver to identical states — same statuses, data and link flags,
mode and receipt time — from any starting state; no receive path
compares sequence values, so duplicated, repeated or out-of-order
sequence numbers are applied exactly like fresh ones.  For the
ESP_RX_WEB receiver, two deliveries differing only in the sequence word
leave identical render-relevant state (bits, has-packet flag, receipt
time) and identical arbitration for every enable configuration. -/
theorem seq_noninterference (xs ys : List (List Nat × Nat))
    (h : List.Forall₂ seqVariant xs ys) :
    (∀ st : RxState, runRx st xs = runRx st ys)
    ∧ (∀ (stw : RxWebState) (len seqA seqB : Nat) (bits : StateBits)
        (now : Nat),
        (on_data_recv stw len (seqA, bits) now).hasPkt =
          (on_data_recv stw len (seqB, bits) now).hasPkt
        ∧ (on_data_recv stw len (seqA, bits) now).lastPktBits =
            (on_data_recv stw len (seqB, bits) now).lastPktBits
        ∧ (on_data_recv stw len (seqA, bits) now).lastPktMs =
            (on_data_recv stw len (seqB, bits) now).lastPktMs
        ∧ (∀ (eff : EffectEn) (ta : Bool),
            pickPriority eff ta
              (on_data_recv stw len (seqA, bits) now).lastPktBits =
            pickPriority eff ta
              (on_data_recv stw len (seqB, bits) now).lastPktBits)) := by
  refine ⟨runRx_seq_blind xs ys h, ?_⟩
  intro stw len seqA seqB bits now
  unfold on_data_recv
  by_cases hlen : len = 5 <;> simp [hlen]

theorem seq_noninterference_witness :
    List.Forall₂ seqVariant
      [(payloadBytes (sendPacketPayload 1 0 1 5 100), 500)]
      [(payloadBytes (sendPacketPayload 1 0 1 9 100), 500)]
    ∧ ((∀ st : RxState,
        runRx st [(payloadBytes (sendPacketPayload 1 0 1 5 100), 500)] =
        runRx st [(payloadBytes (sendPacketPayload 1 0 1 9 100), 500)])
    ∧ (∀ (stw : RxWebState) (len seqA seqB : Nat) (bits : StateBits)
        (now : Nat),
        (on_data_recv stw len (seqA, bits) now).hasPkt =
          (on_data_recv stw len (seqB, bits) now).hasPkt
        ∧ (on_data_recv stw len (seqA, bits) now).lastPktBits =
            (on_data_recv stw len (seqB, bits) now).lastPktBits
        ∧ (on_data_recv stw len (seqA, bits) now).lastPktMs =
            (on_data_recv stw len (seqB, bits) now).lastPktMs
        ∧ (∀ (eff : EffectEn) (ta : Bool),
            pickPriority eff ta
              (on_data_recv stw len (seqA, bits) now).lastPktBits =
            pickPriority eff ta
              (on_data_recv stw len (seqB, bits) now).lastPktBits))) :=
  have hf : List.Forall₂ seqVariant
      [(payloadBytes (sendPacketPayload 1 0 1 5 100), 500)]
      [(payloadBytes (sendPacketPayload 1 0 1 9 100), 500)] :=
    List.Forall₂.cons
      ⟨rfl, 1, 0, 1, 5, 9, 100, by decide, by decide, by decide, by decide,
        by decide, by decide, rfl, rfl⟩
      List.Forall₂.nil
  ⟨hf, seq_noninterference _ _ hf⟩
